import Mathlib

set_option linter.unusedVariables false

/-!
Verification of the alerting core of `linux-server-admin-bot`.

The embedding translates, from the Python sources:
  * `config/constants.py`   — `AlertType`
  * `bot/models/metrics.py` — `Alert`, `CPUMetrics`, `MemoryMetrics`, `DiskMetrics`
  * `bot/services/alert_manager.py` — `AlertManager` and its operations
  * `bot/monitors/health_monitor.py` — `check_system_health`, `_send_alert_to_chats`
  * `bot/utils/formatters.py` — `escape_markdown`
  * `config/settings.py` — the validated `Settings` construction

Python `float` percentages are modelled as `Rat` (the comparisons the code
performs are exact at the values of interest), `datetime.now()` instants as
`Int` seconds passed explicitly to each operation, and a raising Python call
as a value of `Except`.
-/

/-- Types of system alerts (`config/constants.py`, `class AlertType`). -/
inductive AlertType where
  | cpu
  | memory
  | disk
  | docker
  | custom
deriving DecidableEq, Repr

/-- System alert (`bot/models/metrics.py`, `@dataclass Alert`).  The
`timestamp` field records the `datetime.now()` instant at construction. -/
structure Alert where
  alert_type : AlertType
  title : String
  message : String
  severity : String
  metric_value : Rat
  threshold : Rat
  timestamp : Int
  acknowledged : Bool
deriving DecidableEq, Repr

/-- CPU usage metrics (`bot/models/metrics.py`, `@dataclass CPUMetrics`). -/
structure CPUMetrics where
  percent : Rat
  count : Nat
  per_cpu : List Rat
  frequency_current : Option Rat
  frequency_min : Option Rat
  frequency_max : Option Rat
  load_avg : Option (Rat × Rat × Rat)
  timestamp : Int
deriving DecidableEq, Repr

/-- Memory usage metrics (`bot/models/metrics.py`, `@dataclass MemoryMetrics`). -/
structure MemoryMetrics where
  total : Int
  available : Int
  used : Int
  percent : Rat
  swap_total : Int
  swap_used : Int
  swap_percent : Rat
  timestamp : Int
deriving DecidableEq, Repr

/-- Total memory in GB (property `MemoryMetrics.total_gb`). -/
def MemoryMetrics.total_gb (m : MemoryMetrics) : Rat :=
  (m.total : Rat) / (1024 ^ 3)

/-- Used memory in GB (property `MemoryMetrics.used_gb`). -/
def MemoryMetrics.used_gb (m : MemoryMetrics) : Rat :=
  (m.used : Rat) / (1024 ^ 3)

/-- Disk usage metrics (`bot/models/metrics.py`, `@dataclass DiskMetrics`). -/
structure DiskMetrics where
  total : Int
  used : Int
  free : Int
  percent : Rat
  mount_point : String
  timestamp : Int
deriving DecidableEq, Repr

/-- Total disk space in GB (property `DiskMetrics.total_gb`). -/
def DiskMetrics.total_gb (d : DiskMetrics) : Rat :=
  (d.total : Rat) / (1024 ^ 3)

/-- Used disk space in GB (property `DiskMetrics.used_gb`). -/
def DiskMetrics.used_gb (d : DiskMetrics) : Rat :=
  (d.used : Rat) / (1024 ^ 3)

/-- Rendering of a nonnegative rational with one decimal place, modelling the
Python format specifier `:.1f` used in the alert message f-strings (the exact
rounding of binary floats is immaterial to every claim; no claim inspects the
rendered message). -/
def fmt1 (q : Rat) : String :=
  let n : Int := round (q * 10)
  toString (n / 10) ++ "." ++ toString (n % 10).natAbs

/-- State of the alert-management service
(`bot/services/alert_manager.py`, `class AlertManager.__init__`).
The Python dict `_last_alert_time` is modelled as a total function to
`Option Int`; a callback is a function that may raise (`Except.error`). -/
structure AlertManager where
  cpu_threshold : Rat
  memory_threshold : Rat
  disk_threshold : Rat
  cooldown_seconds : Nat
  last_alert_time : AlertType → Option Int
  active_alerts : List Alert
  callbacks : List (Alert → Except String Unit)

/-- Freshly constructed manager: empty `_last_alert_time` dict, no active
alerts, no callbacks (`AlertManager.__init__`). -/
def AlertManager.init (ct mt dt : Rat) (cd : Nat) : AlertManager :=
  { cpu_threshold := ct
    memory_threshold := mt
    disk_threshold := dt
    cooldown_seconds := cd
    last_alert_time := fun _ => none
    active_alerts := []
    callbacks := [] }

/-- Registers a callback (`AlertManager.register_callback`). -/
def AlertManager.register_callback (m : AlertManager)
    (cb : Alert → Except String Unit) : AlertManager :=
  { m with callbacks := m.callbacks ++ [cb] }

/-- Cooldown test (`AlertManager._can_send_alert`): true when no alert of this
type was ever recorded, or when at least `cooldown_seconds` have elapsed since
the recorded instant. -/
def AlertManager._can_send_alert (m : AlertManager) (t : AlertType) (now : Int) : Bool :=
  match m.last_alert_time t with
  | none => true
  | some last => decide ((m.cooldown_seconds : Int) ≤ now - last)

/-- Result of `AlertManager._trigger_alert`: the updated manager together with
the outcome of each registered callback, in registration order.  A raising
callback contributes an `Except.error` entry; the `try`/`except` around each
call means the loop continues regardless. -/
structure TriggerResult where
  manager : AlertManager
  callback_results : List (Except String Unit)

/-- Records the emission instant for the alert type, appends the alert to the
active list, then calls every registered callback, catching exceptions
(`AlertManager._trigger_alert`). -/
def AlertManager._trigger_alert (m : AlertManager) (a : Alert) (now : Int) : TriggerResult :=
  { manager :=
      { m with
        last_alert_time := fun t => if t = a.alert_type then some now else m.last_alert_time t
        active_alerts := m.active_alerts ++ [a] }
    callback_results := m.callbacks.map (fun cb => cb a) }

/-- Result of one threshold check: the optional alert returned to the caller,
the manager state after the call, and the callback outcomes. -/
structure CheckResult where
  alert : Option Alert
  manager : AlertManager
  callback_results : List (Except String Unit)

/-- Alert value constructed by `check_cpu_alert` when it fires (the
`Alert(...)` construction inside `AlertManager.check_cpu_alert`). -/
def cpu_alert_of (m : AlertManager) (metrics : CPUMetrics) (now : Int) : Alert :=
  { alert_type := AlertType.cpu
    title := "High CPU Usage"
    message := "CPU usage is at " ++ fmt1 metrics.percent ++ "%"
    severity := if (95 : Rat) < metrics.percent then "critical" else "warning"
    metric_value := metrics.percent
    threshold := m.cpu_threshold
    timestamp := now
    acknowledged := false }

/-- CPU threshold check (`AlertManager.check_cpu_alert`). -/
def AlertManager.check_cpu_alert (m : AlertManager) (metrics : CPUMetrics) (now : Int) : CheckResult :=
  if m.cpu_threshold < metrics.percent then
    if m._can_send_alert AlertType.cpu now then
      let alert : Alert := cpu_alert_of m metrics now
      let r := m._trigger_alert alert now
      { alert := some alert, manager := r.manager, callback_results := r.callback_results }
    else { alert := none, manager := m, callback_results := [] }
  else { alert := none, manager := m, callback_results := [] }

/-- Alert value constructed by `check_memory_alert` when it fires. -/
def memory_alert_of (m : AlertManager) (metrics : MemoryMetrics) (now : Int) : Alert :=
  { alert_type := AlertType.memory
    title := "High Memory Usage"
    message := "Memory usage is at " ++ fmt1 metrics.percent ++ "% (" ++
      fmt1 metrics.used_gb ++ "GB / " ++ fmt1 metrics.total_gb ++ "GB)"
    severity := if (95 : Rat) < metrics.percent then "critical" else "warning"
    metric_value := metrics.percent
    threshold := m.memory_threshold
    timestamp := now
    acknowledged := false }

/-- Memory threshold check (`AlertManager.check_memory_alert`). -/
def AlertManager.check_memory_alert (m : AlertManager) (metrics : MemoryMetrics) (now : Int) : CheckResult :=
  if m.memory_threshold < metrics.percent then
    if m._can_send_alert AlertType.memory now then
      let alert : Alert := memory_alert_of m metrics now
      let r := m._trigger_alert alert now
      { alert := some alert, manager := r.manager, callback_results := r.callback_results }
    else { alert := none, manager := m, callback_results := [] }
  else { alert := none, manager := m, callback_results := [] }

/-- Alert value constructed by `check_disk_alert` when it fires. -/
def disk_alert_of (m : AlertManager) (metrics : DiskMetrics) (now : Int) : Alert :=
  { alert_type := AlertType.disk
    title := "High Disk Usage"
    message := "Disk usage is at " ++ fmt1 metrics.percent ++ "% (" ++
      fmt1 metrics.used_gb ++ "GB / " ++ fmt1 metrics.total_gb ++ "GB) on " ++
      metrics.mount_point
    severity := if (95 : Rat) < metrics.percent then "critical" else "warning"
    metric_value := metrics.percent
    threshold := m.disk_threshold
    timestamp := now
    acknowledged := false }

/-- Disk threshold check (`AlertManager.check_disk_alert`). -/
def AlertManager.check_disk_alert (m : AlertManager) (metrics : DiskMetrics) (now : Int) : CheckResult :=
  if m.disk_threshold < metrics.percent then
    if m._can_send_alert AlertType.disk now then
      let alert : Alert := disk_alert_of m metrics now
      let r := m._trigger_alert alert now
      { alert := some alert, manager := r.manager, callback_results := r.callback_results }
    else { alert := none, manager := m, callback_results := [] }
  else { alert := none, manager := m, callback_results := [] }

/-- Custom alert creation (`AlertManager.create_custom_alert`).  Note that,
unlike the threshold checks, it calls `_trigger_alert` without consulting
`_can_send_alert`: the cooldown is neither checked nor enforced here. -/
def AlertManager.create_custom_alert (m : AlertManager) (title message severity : String)
    (alert_type : AlertType) (now : Int) : CheckResult :=
  let alert : Alert :=
    { alert_type := alert_type
      title := title
      message := message
      severity := severity
      metric_value := 0
      threshold := 0
      timestamp := now
      acknowledged := false }
  let r := m._trigger_alert alert now
  { alert := some alert, manager := r.manager, callback_results := r.callback_results }

/-- Snapshot copy of the active alerts (`AlertManager.get_active_alerts`). -/
def AlertManager.get_active_alerts (m : AlertManager) : List Alert :=
  m.active_alerts

/-- Clears active alerts, optionally only those of one type
(`AlertManager.clear_alerts`); `_last_alert_time` is left untouched.
`AlertType` is a `str` enum whose members are all truthy, so the Python
`if alert_type:` test distinguishes exactly `None` from a member. -/
def AlertManager.clear_alerts (m : AlertManager) (alert_type : Option AlertType) : AlertManager :=
  match alert_type with
  | some t => { m with active_alerts := m.active_alerts.filter (fun a => a.alert_type != t) }
  | none => { m with active_alerts := [] }

/-- Heap-style state for `AlertManager.acknowledge_alert`.  Python `Alert`
objects are mutable and the method mutates its argument before testing list
membership, so object identity matters: each object is modelled by a
natural-number id (`oid`) and a heap assigning the current dataclass value to
each id; `_active_alerts` is the list of ids of the appended objects. -/
structure AlertHeapState where
  heap : Nat → Alert
  active : List Nat

/-- Acknowledges an alert (`AlertManager.acknowledge_alert`): sets
`alert.acknowledged = True` on the passed object, then — the Python
`in`/`remove` pair on a dataclass list — removes the first list entry whose
dataclass value equals the (now mutated) argument, if any. -/
def AlertHeapState.acknowledge_alert (s : AlertHeapState) (oid : Nat) : AlertHeapState :=
  let a1 : Alert := { s.heap oid with acknowledged := true }
  let heap1 : Nat → Alert := fun j => if j = oid then a1 else s.heap j
  if s.active.any (fun j => heap1 j == a1) then
    { heap := heap1, active := s.active.eraseP (fun j => heap1 j == a1) }
  else
    { heap := heap1, active := s.active }

/-- Escapes Telegram MarkdownV2 special characters
(`bot/utils/formatters.py`, `escape_markdown`). -/
def escape_markdown (text : String) : String :=
  let special_chars : List String :=
    ["_", "*", "[", "]", "(", ")", "~", "`", ">", "#", "+", "-", "=", "|",
      "\x7b", "\x7d", ".", "!"]
  special_chars.foldl (fun t c => t.replace c ("\\" ++ c)) text

/-- Severity-to-emoji lookup with the `warning` default
(`HealthMonitor._send_alert_to_chats`, `severity_emoji.get`). -/
def severity_emoji_get (severity : String) : String :=
  if severity = "info" then "ℹ️"
  else if severity = "warning" then "⚠️"
  else if severity = "critical" then "❌"
  else "⚠️"

/-- Message text formatted for one alert
(`HealthMonitor._send_alert_to_chats`, the `message` f-string). -/
def alert_chat_message (a : Alert) : String :=
  severity_emoji_get a.severity ++ " *ALERT: " ++ escape_markdown a.title ++ "*\n\n" ++
    escape_markdown a.message ++ "\n\n" ++
    "Threshold: " ++ escape_markdown (fmt1 a.threshold ++ "%") ++ "\n" ++
    "Current: " ++ escape_markdown (fmt1 a.metric_value ++ "%") ++ "\n" ++
    "Severity: " ++ escape_markdown a.severity.toUpper

/-- Delivery loop over the registered chats
(`HealthMonitor._send_alert_to_chats`, the `for chat_id in ...` loop).
`send` models `bot.send_message`; a raised delivery error is `Except.error`.
The `try`/`except` around each send records the failure and continues to the
next recipient, so every chat receives exactly one attempt. -/
def send_loop (send : Int → String → Except String Unit) (message : String) :
    List Int → List (Int × Except String Unit)
  | [] => []
  | c :: rest =>
    match send c message with
    | Except.ok u => (c, Except.ok u) :: send_loop send message rest
    | Except.error e => (c, Except.error e) :: send_loop send message rest

/-- Broadcast of one alert to all registered chats
(`HealthMonitor._send_alert_to_chats`).  With no registered chat the method
logs a warning and returns before formatting; otherwise it formats the message
once and attempts delivery to every chat, catching per-recipient failures.
The returned list is the sequence of delivery attempts with their outcomes;
the function itself never propagates a delivery error. -/
def _send_alert_to_chats (chats : List Int) (send : Int → String → Except String Unit)
    (a : Alert) : List (Int × Except String Unit) :=
  if chats.isEmpty then []
  else send_loop send (alert_chat_message a) chats

/-- Result of one scheduled tick (`HealthMonitor.check_system_health`): the
manager state after the tick and the alerts collected for broadcast. -/
structure TickResult where
  manager : AlertManager
  alerts : List Alert

/-- One scheduled tick (`HealthMonitor.check_system_health`).  The body first
samples CPU, memory and disk, then runs the three threshold checks and
collects the emitted alerts; the whole body sits inside a single
`try`/`except` that logs any exception, so a failure while sampling any one
metric aborts the remaining work of the tick (the three samplings precede all
three evaluations in the source). -/
def check_system_health (m : AlertManager)
    (cpu_sample : Except String CPUMetrics)
    (memory_sample : Except String MemoryMetrics)
    (disk_sample : Except String DiskMetrics)
    (now : Int) : TickResult :=
  match cpu_sample, memory_sample, disk_sample with
  | Except.ok cpu_metrics, Except.ok memory_metrics, Except.ok disk_metrics =>
    let r1 := m.check_cpu_alert cpu_metrics now
    let r2 := r1.manager.check_memory_alert memory_metrics now
    let r3 := r2.manager.check_disk_alert disk_metrics now
    { manager := r3.manager
      alerts := r1.alert.toList ++ r2.alert.toList ++ r3.alert.toList }
  | _, _, _ => { manager := m, alerts := [] }

/-- Settings fields carrying validation constraints
(`config/settings.py`, `class Settings`). -/
structure Settings where
  telegram_bot_token : String
  telegram_allowed_user_ids : String
  cpu_alert_threshold : Int
  memory_alert_threshold : Int
  disk_alert_threshold : Int
  alert_check_interval : Int
  alert_cooldown : Int
  rate_limit_calls : Int
  rate_limit_period : Int
  chart_dpi : Int
  chart_figsize_width : Int
  chart_figsize_height : Int
deriving DecidableEq, Repr

/-- Custom field validator for `telegram_allowed_user_ids`
(`Settings.validate_user_ids`): every comma-separated piece must parse as an
integer after stripping whitespace. -/
def validate_user_ids (v : String) : Bool :=
  (v.splitOn ",").all (fun uid => (uid.trim.toInt?).isSome)

/-- Validated construction of `Settings` (`settings = Settings()` at
`config/settings.py`).  Pydantic rejects any field outside its declared
`ge`/`le` bounds, and runs the custom user-id validator; a rejection raises when
the module loads, so the process never starts with such a configuration.  The
checks are modelled field by field in declaration order. -/
def Settings.validate (s : Settings) : Except String Settings :=
  if ¬ (1 ≤ s.cpu_alert_threshold ∧ s.cpu_alert_threshold ≤ 100) then
    Except.error "cpu_alert_threshold"
  else if ¬ (1 ≤ s.memory_alert_threshold ∧ s.memory_alert_threshold ≤ 100) then
    Except.error "memory_alert_threshold"
  else if ¬ (1 ≤ s.disk_alert_threshold ∧ s.disk_alert_threshold ≤ 100) then
    Except.error "disk_alert_threshold"
  else if ¬ (60 ≤ s.alert_check_interval) then
    Except.error "alert_check_interval"
  else if ¬ (60 ≤ s.alert_cooldown) then
    Except.error "alert_cooldown"
  else if ¬ (1 ≤ s.rate_limit_calls) then
    Except.error "rate_limit_calls"
  else if ¬ (1 ≤ s.rate_limit_period) then
    Except.error "rate_limit_period"
  else if ¬ (50 ≤ s.chart_dpi ∧ s.chart_dpi ≤ 300) then
    Except.error "chart_dpi"
  else if ¬ (5 ≤ s.chart_figsize_width ∧ s.chart_figsize_width ≤ 20) then
    Except.error "chart_figsize_width"
  else if ¬ (4 ≤ s.chart_figsize_height ∧ s.chart_figsize_height ≤ 15) then
    Except.error "chart_figsize_height"
  else if ¬ validate_user_ids s.telegram_allowed_user_ids then
    Except.error "telegram_allowed_user_ids"
  else Except.ok s

/-- Alert-emitting operations of the `AlertManager` surface, plus the clearing
operation, for stating trace invariants. -/
inductive Op where
  | checkCpu (metrics : CPUMetrics)
  | checkMemory (metrics : MemoryMetrics)
  | checkDisk (metrics : DiskMetrics)
  | customAlert (title message severity : String) (alert_type : AlertType)
  | clearAlerts (alert_type : Option AlertType)
deriving Repr

/-- Recognizer for the `create_custom_alert` operation. -/
def Op.isCustomAlert : Op → Bool
  | Op.customAlert _ _ _ _ => true
  | _ => false

/-- One operation applied to the manager at instant `now`; the second
component lists the alerts the operation emitted (zero or one). -/
def stepOp (m : AlertManager) (now : Int) : Op → AlertManager × List Alert
  | Op.checkCpu x => let r := m.check_cpu_alert x now; (r.manager, r.alert.toList)
  | Op.checkMemory x => let r := m.check_memory_alert x now; (r.manager, r.alert.toList)
  | Op.checkDisk x => let r := m.check_disk_alert x now; (r.manager, r.alert.toList)
  | Op.customAlert t msg sev ty =>
    let r := m.create_custom_alert t msg sev ty now
    (r.manager, r.alert.toList)
  | Op.clearAlerts t => (m.clear_alerts t, [])

/-- Runs a timed sequence of operations, collecting every emitted alert in
emission order. -/
def runOps (m : AlertManager) : List (Int × Op) → AlertManager × List Alert
  | [] => (m, [])
  | p :: rest =>
    let r := stepOp m p.1 p.2
    let r2 := runOps r.1 rest
    (r2.1, r.2 ++ r2.2)

/-- Separation of two alerts required by the cooldown invariant: when the two
alerts have the same kind, the second was emitted at least `cd` seconds after
the first. -/
def sep (cd : Nat) (a b : Alert) : Prop :=
  a.alert_type = b.alert_type → a.timestamp + (cd : Int) ≤ b.timestamp

instance (cd : Nat) (a b : Alert) : Decidable (sep cd a b) :=
  inferInstanceAs (Decidable (a.alert_type = b.alert_type → a.timestamp + (cd : Int) ≤ b.timestamp))

/-! Cooldown invariant machinery for claim C1. -/

/-- Invariant relating the manager state to the list `em` of alerts emitted so
far and an upper bound `tmax` on every recorded instant: every emitted alert
has a recorded last-emission instant for its kind no earlier than its own
timestamp, every recorded instant is at most `tmax`, and the emitted alerts
are pairwise cooldown-separated. -/
def CooldownInv (cd : Nat) (m : AlertManager) (em : List Alert) (tmax : Int) : Prop :=
  m.cooldown_seconds = cd ∧
  (∀ a ∈ em, ∃ lt, m.last_alert_time a.alert_type = some lt ∧ a.timestamp ≤ lt) ∧
  (∀ t lt, m.last_alert_time t = some lt → lt ≤ tmax) ∧
  List.Pairwise (sep cd) em

/-- Fixture CPU sample with a given usage percentage (as in the repository's
unit tests). -/
def cpuSample (p : Rat) : CPUMetrics :=
  { percent := p
    count := 4
    per_cpu := [p, p, p, p]
    frequency_current := none
    frequency_min := none
    frequency_max := none
    load_avg := none
    timestamp := 0 }

/-- Fixture memory sample with a given usage percentage. -/
def memSample (p : Rat) : MemoryMetrics :=
  { total := 17179869184
    available := 8589934592
    used := 8589934592
    percent := p
    swap_total := 0
    swap_used := 0
    swap_percent := 0
    timestamp := 0 }

/-- Fixture disk sample with a given usage percentage. -/
def diskSample (p : Rat) : DiskMetrics :=
  { total := 107374182400
    used := 53687091200
    free := 53687091200
    percent := p
    mount_point := "/"
    timestamp := 0 }

/-- Manager fixture whose CPU kind last emitted at instant 0, with a
60-second cooldown (the state right after a first CPU emission at 0,
with its active alert cleared for brevity — the cooldown map is what the
claim exercises). -/
def managerAfterCpuEmission : AlertManager :=
  { cpu_threshold := 80
    memory_threshold := 80
    disk_threshold := 90
    cooldown_seconds := 60
    last_alert_time := fun t => if t = AlertType.cpu then some 0 else none
    active_alerts := []
    callbacks := [] }

/-- Rational 95.1 in reduced constructor form, so that kernel evaluation of
comparisons against it is possible. -/
def ninetyFivePointOne : Rat := ⟨951, 10, by norm_num, by norm_num⟩

/-- Alert object fixture for the C6 witness. -/
def ackAlertA : Alert :=
  { alert_type := AlertType.cpu
    title := "High CPU Usage"
    message := "CPU usage is at 85.0%"
    severity := "warning"
    metric_value := 85
    threshold := 80
    timestamp := 0
    acknowledged := false }

/-- Second, distinct alert object fixture for the C6 witness. -/
def ackAlertB : Alert :=
  { alert_type := AlertType.memory
    title := "High Memory Usage"
    message := "Memory usage is at 90.0%"
    severity := "warning"
    metric_value := 90
    threshold := 80
    timestamp := 3
    acknowledged := false }

/-- Heap state fixture with two active alert objects (ids 0 and 1). -/
def ackStateAB : AlertHeapState :=
  { heap := fun j => if j = 0 then ackAlertA else ackAlertB
    active := [0, 1] }

/-- Delivery function fixture for the C5 witness: delivery to chat 1 raises,
delivery to any other chat succeeds. -/
def sendFailsOn1 (c : Int) (_msg : String) : Except String Unit :=
  if c = 1 then Except.error "Forbidden: bot was blocked by the user" else Except.ok ()

/-- Settings fixture with a zero cooldown and every other field valid. -/
def settingsZeroCooldown : Settings :=
  { telegram_bot_token := "123456:ABC"
    telegram_allowed_user_ids := "111, 222"
    cpu_alert_threshold := 80
    memory_alert_threshold := 80
    disk_alert_threshold := 90
    alert_check_interval := 300
    alert_cooldown := 0
    rate_limit_calls := 10
    rate_limit_period := 60
    chart_dpi := 100
    chart_figsize_width := 10
    chart_figsize_height := 6 }

/-- Failing callback fixture: always raises. -/
def cbBoom (_a : Alert) : Except String Unit := Except.error "boom"

/-- Succeeding callback fixture. -/
def cbOk (_a : Alert) : Except String Unit := Except.ok ()

/-- Manager fixture with a raising callback registered before a succeeding
one. -/
def managerWithCallbacks : AlertManager :=
  ((AlertManager.init 80 80 90 600).register_callback cbBoom).register_callback cbOk

/-- Manager fixture with one CPU and one memory alert active. -/
def managerTwoAlerts : AlertManager :=
  { cpu_threshold := 80
    memory_threshold := 80
    disk_threshold := 90
    cooldown_seconds := 600
    last_alert_time := fun t => if t = AlertType.cpu then some 0 else none
    active_alerts := [ackAlertA, ackAlertB]
    callbacks := [] }

/-! Branch characterizations of the three threshold checks. -/

theorem check_cpu_below (m : AlertManager) (x : CPUMetrics) (now : Int)
    (h : ¬ m.cpu_threshold < x.percent) :
    m.check_cpu_alert x now = { alert := none, manager := m, callback_results := [] } := by
  simp [AlertManager.check_cpu_alert, h]

theorem check_cpu_cool (m : AlertManager) (x : CPUMetrics) (now : Int)
    (h1 : m.cpu_threshold < x.percent) (h2 : m._can_send_alert AlertType.cpu now = false) :
    m.check_cpu_alert x now = { alert := none, manager := m, callback_results := [] } := by
  simp [AlertManager.check_cpu_alert, h1, h2]

theorem check_cpu_emit (m : AlertManager) (x : CPUMetrics) (now : Int)
    (h1 : m.cpu_threshold < x.percent) (h2 : m._can_send_alert AlertType.cpu now = true) :
    m.check_cpu_alert x now =
      { alert := some (cpu_alert_of m x now)
        manager := (m._trigger_alert (cpu_alert_of m x now) now).manager
        callback_results := (m._trigger_alert (cpu_alert_of m x now) now).callback_results } := by
  simp [AlertManager.check_cpu_alert, h1, h2]

theorem check_memory_below (m : AlertManager) (x : MemoryMetrics) (now : Int)
    (h : ¬ m.memory_threshold < x.percent) :
    m.check_memory_alert x now = { alert := none, manager := m, callback_results := [] } := by
  simp [AlertManager.check_memory_alert, h]

theorem check_memory_cool (m : AlertManager) (x : MemoryMetrics) (now : Int)
    (h1 : m.memory_threshold < x.percent) (h2 : m._can_send_alert AlertType.memory now = false) :
    m.check_memory_alert x now = { alert := none, manager := m, callback_results := [] } := by
  simp [AlertManager.check_memory_alert, h1, h2]

theorem check_memory_emit (m : AlertManager) (x : MemoryMetrics) (now : Int)
    (h1 : m.memory_threshold < x.percent) (h2 : m._can_send_alert AlertType.memory now = true) :
    m.check_memory_alert x now =
      { alert := some (memory_alert_of m x now)
        manager := (m._trigger_alert (memory_alert_of m x now) now).manager
        callback_results := (m._trigger_alert (memory_alert_of m x now) now).callback_results } := by
  simp [AlertManager.check_memory_alert, h1, h2]

theorem check_disk_below (m : AlertManager) (x : DiskMetrics) (now : Int)
    (h : ¬ m.disk_threshold < x.percent) :
    m.check_disk_alert x now = { alert := none, manager := m, callback_results := [] } := by
  simp [AlertManager.check_disk_alert, h]

theorem check_disk_cool (m : AlertManager) (x : DiskMetrics) (now : Int)
    (h1 : m.disk_threshold < x.percent) (h2 : m._can_send_alert AlertType.disk now = false) :
    m.check_disk_alert x now = { alert := none, manager := m, callback_results := [] } := by
  simp [AlertManager.check_disk_alert, h1, h2]

theorem check_disk_emit (m : AlertManager) (x : DiskMetrics) (now : Int)
    (h1 : m.disk_threshold < x.percent) (h2 : m._can_send_alert AlertType.disk now = true) :
    m.check_disk_alert x now =
      { alert := some (disk_alert_of m x now)
        manager := (m._trigger_alert (disk_alert_of m x now) now).manager
        callback_results := (m._trigger_alert (disk_alert_of m x now) now).callback_results } := by
  simp [AlertManager.check_disk_alert, h1, h2]

theorem cooldownInv_mono (cd : Nat) (m : AlertManager) (em : List Alert) (tmax now : Int)
    (hinv : CooldownInv cd m em tmax) (ht : tmax ≤ now) : CooldownInv cd m em now := by
  obtain ⟨hcd, h1, h2, h3⟩ := hinv
  exact ⟨hcd, h1, fun t lt hlt => le_trans (h2 t lt hlt) ht, h3⟩

theorem trigger_cooldownInv (cd : Nat) (m : AlertManager) (em : List Alert) (tmax now : Int)
    (a : Alert) (hinv : CooldownInv cd m em tmax) (ht : tmax ≤ now) (hts : a.timestamp = now)
    (hcan : m._can_send_alert a.alert_type now = true) :
    CooldownInv cd (m._trigger_alert a now).manager (em ++ [a]) now := by
  obtain ⟨hcd, hlastm, hbound, hpw⟩ := hinv
  refine ⟨hcd, ?_, ?_, ?_⟩
  · intro b hb
    rcases List.mem_append.mp hb with hb | hb
    · obtain ⟨lt, hlt, hble⟩ := hlastm b hb
      by_cases hty : b.alert_type = a.alert_type
      · refine ⟨now, ?_, le_trans hble (le_trans (hbound _ _ hlt) ht)⟩
        simp [AlertManager._trigger_alert, hty]
      · refine ⟨lt, ?_, hble⟩
        simpa [AlertManager._trigger_alert, hty] using hlt
    · rw [List.mem_singleton] at hb
      subst hb
      refine ⟨now, ?_, le_of_eq hts⟩
      simp [AlertManager._trigger_alert]
  · intro t lt hlt
    by_cases hty : t = a.alert_type
    · simp [AlertManager._trigger_alert, hty] at hlt
      omega
    · simp [AlertManager._trigger_alert, hty] at hlt
      exact le_trans (hbound _ _ hlt) ht
  · rw [List.pairwise_append]
    refine ⟨hpw, List.pairwise_singleton _ _, ?_⟩
    intro x hx y hy
    rw [List.mem_singleton] at hy
    subst hy
    intro hty
    obtain ⟨lt, hlt, hxle⟩ := hlastm x hx
    rw [hty] at hlt
    unfold AlertManager._can_send_alert at hcan
    rw [hlt] at hcan
    simp only [decide_eq_true_eq] at hcan
    rw [hts, hcd] at *
    omega

theorem stepOp_cooldownInv (cd : Nat) (m : AlertManager) (em : List Alert) (tmax now : Int)
    (op : Op) (hinv : CooldownInv cd m em tmax) (ht : tmax ≤ now)
    (hnc : op.isCustomAlert = false) :
    CooldownInv cd (stepOp m now op).1 (em ++ (stepOp m now op).2) now := by
  cases op with
  | checkCpu x =>
    by_cases h1 : m.cpu_threshold < x.percent
    · by_cases h2 : m._can_send_alert AlertType.cpu now = true
      · have he := check_cpu_emit m x now h1 h2
        simp only [stepOp, he, Option.toList_some]
        exact trigger_cooldownInv cd m em tmax now _ hinv ht rfl h2
      · rw [Bool.not_eq_true] at h2
        have he := check_cpu_cool m x now h1 h2
        simp only [stepOp, he, Option.toList_none, List.append_nil]
        exact cooldownInv_mono cd m em tmax now hinv ht
    · have he := check_cpu_below m x now h1
      simp only [stepOp, he, Option.toList_none, List.append_nil]
      exact cooldownInv_mono cd m em tmax now hinv ht
  | checkMemory x =>
    by_cases h1 : m.memory_threshold < x.percent
    · by_cases h2 : m._can_send_alert AlertType.memory now = true
      · have he := check_memory_emit m x now h1 h2
        simp only [stepOp, he, Option.toList_some]
        exact trigger_cooldownInv cd m em tmax now _ hinv ht rfl h2
      · rw [Bool.not_eq_true] at h2
        have he := check_memory_cool m x now h1 h2
        simp only [stepOp, he, Option.toList_none, List.append_nil]
        exact cooldownInv_mono cd m em tmax now hinv ht
    · have he := check_memory_below m x now h1
      simp only [stepOp, he, Option.toList_none, List.append_nil]
      exact cooldownInv_mono cd m em tmax now hinv ht
  | checkDisk x =>
    by_cases h1 : m.disk_threshold < x.percent
    · by_cases h2 : m._can_send_alert AlertType.disk now = true
      · have he := check_disk_emit m x now h1 h2
        simp only [stepOp, he, Option.toList_some]
        exact trigger_cooldownInv cd m em tmax now _ hinv ht rfl h2
      · rw [Bool.not_eq_true] at h2
        have he := check_disk_cool m x now h1 h2
        simp only [stepOp, he, Option.toList_none, List.append_nil]
        exact cooldownInv_mono cd m em tmax now hinv ht
    · have he := check_disk_below m x now h1
      simp only [stepOp, he, Option.toList_none, List.append_nil]
      exact cooldownInv_mono cd m em tmax now hinv ht
  | customAlert t msg sev ty =>
    simp [Op.isCustomAlert] at hnc
  | clearAlerts t =>
    obtain ⟨hcd, h1, h2, h3⟩ := hinv
    have hl : (m.clear_alerts t).last_alert_time = m.last_alert_time := by
      cases t <;> rfl
    have hc : (m.clear_alerts t).cooldown_seconds = m.cooldown_seconds := by
      cases t <;> rfl
    simp only [stepOp, List.append_nil]
    exact ⟨hc.trans hcd, fun a ha => by rw [hl]; exact h1 a ha,
      fun ty lt hlt => le_trans (h2 ty lt (by rwa [hl] at hlt)) ht, h3⟩

theorem runOps_cooldownInv (cd : Nat) (trace : List (Int × Op)) (m : AlertManager)
    (em : List Alert) (tmax : Int) (hinv : CooldownInv cd m em tmax)
    (hchain : List.Chain (fun a b => a ≤ b) tmax (trace.map Prod.fst))
    (hnc : ∀ p ∈ trace, Op.isCustomAlert p.2 = false) :
    ∃ tfin, CooldownInv cd (runOps m trace).1 (em ++ (runOps m trace).2) tfin := by
  induction trace generalizing m em tmax with
  | nil =>
    refine ⟨tmax, ?_⟩
    simpa [runOps] using hinv
  | cons p rest ih =>
    rw [List.map_cons, List.chain_cons] at hchain
    obtain ⟨hle, hchain2⟩ := hchain
    have hstep := stepOp_cooldownInv cd m em tmax p.1 p.2 hinv hle
      (hnc p (List.mem_cons_self p rest))
    have := ih (stepOp m p.1 p.2).1 (em ++ (stepOp m p.1 p.2).2) p.1 hstep hchain2
      (fun q hq => hnc q (List.mem_cons_of_mem p hq))
    simpa [runOps, List.append_assoc] using this

/-- C1 (amended): starting from a fresh manager, across every sequence of
`AlertManager` operations that does not use `create_custom_alert` — threshold
checks and clears, at nondecreasing clock instants — no two alerts of the same
kind are emitted with timestamps closer together than `cooldown_seconds`,
regardless of how many evaluation cycles occur in between. -/
theorem cooldown_separation_of_trace (ct mt dt : Rat) (cd : Nat) (t0 : Int)
    (trace : List (Int × Op))
    (hchain : List.Chain (fun a b => a ≤ b) t0 (trace.map Prod.fst))
    (hnc : ∀ p ∈ trace, Op.isCustomAlert p.2 = false) :
    List.Pairwise (sep cd) (runOps (AlertManager.init ct mt dt cd) trace).2 := by
  have hinv : CooldownInv cd (AlertManager.init ct mt dt cd) [] t0 :=
    ⟨rfl, by simp, by simp [AlertManager.init], List.Pairwise.nil⟩
  obtain ⟨tfin, h⟩ := runOps_cooldownInv cd trace _ [] t0 hinv hchain hnc
  simpa using h.2.2.2

/-- C1 (counterexample): two `create_custom_alert` calls of the same kind one
second apart, with a 600-second cooldown, are both recorded — the claimed
invariant fails because `create_custom_alert` never consults
`_can_send_alert`. -/
theorem create_custom_alert_violates_cooldown :
    List.Chain (fun a b => a ≤ b) 0
      (([((0 : Int), Op.customAlert "Deploy" "Deploy started" "info" AlertType.custom),
         ((1 : Int), Op.customAlert "Deploy" "Deploy finished" "info" AlertType.custom)]).map
        Prod.fst) ∧
    ¬ List.Pairwise (sep 600)
      (runOps (AlertManager.init 80 80 90 600)
        [((0 : Int), Op.customAlert "Deploy" "Deploy started" "info" AlertType.custom),
         ((1 : Int), Op.customAlert "Deploy" "Deploy finished" "info" AlertType.custom)]).2 := by
  refine ⟨List.Chain.cons (by decide) (List.Chain.cons (by decide) List.Chain.nil), by decide⟩

/-- Witness for the amended C1 theorem: a concrete trace of three CPU checks
at instants 0, 30 and 60 with cooldown 60 emits alerts at 0 and 60, and those
satisfy the pairwise cooldown separation. -/
theorem cooldown_separation_of_trace_witness :
    List.Pairwise (sep 60)
      (runOps (AlertManager.init 80 80 90 60)
        [((0 : Int), Op.checkCpu (cpuSample 85)),
         ((30 : Int), Op.checkCpu (cpuSample 90)),
         ((60 : Int), Op.checkCpu (cpuSample 90))]).2 :=
  cooldown_separation_of_trace 80 80 90 60 0 _
    (List.Chain.cons (by decide)
      (List.Chain.cons (by decide) (List.Chain.cons (by decide) List.Chain.nil)))
    (by decide)

/-- C3 (confirmed): for every kind, an over-threshold check repeated before
`cooldown_seconds` have elapsed since the recorded last emission returns
nothing and leaves the manager exactly as it was (silent suppression), and
once at least `cooldown_seconds` have elapsed the over-threshold check emits
again. -/
theorem over_threshold_repeat_suppressed_then_reemits (m : AlertManager) (now lt : Int) :
    (∀ x : CPUMetrics, m.cpu_threshold < x.percent →
      m.last_alert_time AlertType.cpu = some lt →
      ((now - lt < (m.cooldown_seconds : Int) →
        m.check_cpu_alert x now = { alert := none, manager := m, callback_results := [] }) ∧
       ((m.cooldown_seconds : Int) ≤ now - lt →
        (m.check_cpu_alert x now).alert = some (cpu_alert_of m x now)))) ∧
    (∀ x : MemoryMetrics, m.memory_threshold < x.percent →
      m.last_alert_time AlertType.memory = some lt →
      ((now - lt < (m.cooldown_seconds : Int) →
        m.check_memory_alert x now = { alert := none, manager := m, callback_results := [] }) ∧
       ((m.cooldown_seconds : Int) ≤ now - lt →
        (m.check_memory_alert x now).alert = some (memory_alert_of m x now)))) ∧
    (∀ x : DiskMetrics, m.disk_threshold < x.percent →
      m.last_alert_time AlertType.disk = some lt →
      ((now - lt < (m.cooldown_seconds : Int) →
        m.check_disk_alert x now = { alert := none, manager := m, callback_results := [] }) ∧
       ((m.cooldown_seconds : Int) ≤ now - lt →
        (m.check_disk_alert x now).alert = some (disk_alert_of m x now)))) := by
  refine ⟨fun x h1 hlast => ⟨fun hcool => ?_, fun helapsed => ?_⟩,
          fun x h1 hlast => ⟨fun hcool => ?_, fun helapsed => ?_⟩,
          fun x h1 hlast => ⟨fun hcool => ?_, fun helapsed => ?_⟩⟩
  · refine check_cpu_cool m x now h1 ?_
    simp only [AlertManager._can_send_alert, hlast, decide_eq_false_iff_not]
    omega
  · rw [check_cpu_emit m x now h1
      (by simp only [AlertManager._can_send_alert, hlast, decide_eq_true_eq]; omega)]
  · refine check_memory_cool m x now h1 ?_
    simp only [AlertManager._can_send_alert, hlast, decide_eq_false_iff_not]
    omega
  · rw [check_memory_emit m x now h1
      (by simp only [AlertManager._can_send_alert, hlast, decide_eq_true_eq]; omega)]
  · refine check_disk_cool m x now h1 ?_
    simp only [AlertManager._can_send_alert, hlast, decide_eq_false_iff_not]
    omega
  · rw [check_disk_emit m x now h1
      (by simp only [AlertManager._can_send_alert, hlast, decide_eq_true_eq]; omega)]

/-- Witness for C3: with threshold 80, cooldown 60 and a CPU emission
recorded at instant 0, a CPU check of 85% at instant 1 is silently
suppressed, and the same check at instant 60 emits again. -/
theorem over_threshold_repeat_witness :
    managerAfterCpuEmission.check_cpu_alert (cpuSample 85) 1 =
      { alert := none, manager := managerAfterCpuEmission, callback_results := [] } ∧
    (managerAfterCpuEmission.check_cpu_alert (cpuSample 85) 60).alert =
      some (cpu_alert_of managerAfterCpuEmission (cpuSample 85) 60) :=
  ⟨((over_threshold_repeat_suppressed_then_reemits managerAfterCpuEmission 1 0).1
      (cpuSample 85) (by decide) rfl).1 (by decide),
   ((over_threshold_repeat_suppressed_then_reemits managerAfterCpuEmission 60 0).1
      (cpuSample 85) (by decide) rfl).2 (by decide)⟩

/-- C4 (confirmed): for every kind, a value strictly over the threshold with
no prior emission recorded for that kind makes the check return an alert
carrying `metric_value` equal to the sampled value and `threshold` equal to
the configured threshold, with severity `critical` exactly when the value
exceeds 95; the alert is appended to the active list and the last-emission
instant of the kind is set to the current instant. -/
theorem first_over_threshold_emits (m : AlertManager) (now : Int) :
    (∀ x : CPUMetrics, m.cpu_threshold < x.percent →
      m.last_alert_time AlertType.cpu = none →
      (m.check_cpu_alert x now).alert = some (cpu_alert_of m x now) ∧
      (cpu_alert_of m x now).metric_value = x.percent ∧
      (cpu_alert_of m x now).threshold = m.cpu_threshold ∧
      ((cpu_alert_of m x now).severity = "critical" ↔ (95 : Rat) < x.percent) ∧
      ((cpu_alert_of m x now).severity = "warning" ↔ ¬ (95 : Rat) < x.percent) ∧
      (m.check_cpu_alert x now).manager.active_alerts
        = m.active_alerts ++ [cpu_alert_of m x now] ∧
      (m.check_cpu_alert x now).manager.last_alert_time AlertType.cpu = some now) ∧
    (∀ x : MemoryMetrics, m.memory_threshold < x.percent →
      m.last_alert_time AlertType.memory = none →
      (m.check_memory_alert x now).alert = some (memory_alert_of m x now) ∧
      (memory_alert_of m x now).metric_value = x.percent ∧
      (memory_alert_of m x now).threshold = m.memory_threshold ∧
      ((memory_alert_of m x now).severity = "critical" ↔ (95 : Rat) < x.percent) ∧
      ((memory_alert_of m x now).severity = "warning" ↔ ¬ (95 : Rat) < x.percent) ∧
      (m.check_memory_alert x now).manager.active_alerts
        = m.active_alerts ++ [memory_alert_of m x now] ∧
      (m.check_memory_alert x now).manager.last_alert_time AlertType.memory = some now) ∧
    (∀ x : DiskMetrics, m.disk_threshold < x.percent →
      m.last_alert_time AlertType.disk = none →
      (m.check_disk_alert x now).alert = some (disk_alert_of m x now) ∧
      (disk_alert_of m x now).metric_value = x.percent ∧
      (disk_alert_of m x now).threshold = m.disk_threshold ∧
      ((disk_alert_of m x now).severity = "critical" ↔ (95 : Rat) < x.percent) ∧
      ((disk_alert_of m x now).severity = "warning" ↔ ¬ (95 : Rat) < x.percent) ∧
      (m.check_disk_alert x now).manager.active_alerts
        = m.active_alerts ++ [disk_alert_of m x now] ∧
      (m.check_disk_alert x now).manager.last_alert_time AlertType.disk = some now) := by
  refine ⟨fun x h1 hlast => ?_, fun x h1 hlast => ?_, fun x h1 hlast => ?_⟩
  · have h2 : m._can_send_alert AlertType.cpu now = true := by
      simp [AlertManager._can_send_alert, hlast]
    rw [check_cpu_emit m x now h1 h2]
    refine ⟨rfl, rfl, rfl, ?_, ?_, rfl, ?_⟩
    · by_cases h95 : (95 : Rat) < x.percent <;> simp [cpu_alert_of, h95]
    · by_cases h95 : (95 : Rat) < x.percent <;> simp [cpu_alert_of, h95]
    · simp [AlertManager._trigger_alert, cpu_alert_of]
  · have h2 : m._can_send_alert AlertType.memory now = true := by
      simp [AlertManager._can_send_alert, hlast]
    rw [check_memory_emit m x now h1 h2]
    refine ⟨rfl, rfl, rfl, ?_, ?_, rfl, ?_⟩
    · by_cases h95 : (95 : Rat) < x.percent <;> simp [memory_alert_of, h95]
    · by_cases h95 : (95 : Rat) < x.percent <;> simp [memory_alert_of, h95]
    · simp [AlertManager._trigger_alert, memory_alert_of]
  · have h2 : m._can_send_alert AlertType.disk now = true := by
      simp [AlertManager._can_send_alert, hlast]
    rw [check_disk_emit m x now h1 h2]
    refine ⟨rfl, rfl, rfl, ?_, ?_, rfl, ?_⟩
    · by_cases h95 : (95 : Rat) < x.percent <;> simp [disk_alert_of, h95]
    · by_cases h95 : (95 : Rat) < x.percent <;> simp [disk_alert_of, h95]
    · simp [AlertManager._trigger_alert, disk_alert_of]

theorem ninetyFivePointOne_eq : ninetyFivePointOne = 95.1 := by
  have h : ninetyFivePointOne = Rat.divInt 951 10 := Rat.mk'_eq_divInt
  rw [h, Rat.divInt_eq_div]
  norm_num

/-- Witness for C4 at the severity boundary: on a fresh manager with CPU
threshold 80, a 95.0% sample emits a `warning` alert carrying the sampled
value, and a 95.1% sample emits a `critical` one. -/
theorem first_over_threshold_emits_witness :
    (cpu_alert_of (AlertManager.init 80 80 90 600) (cpuSample 95) 0).severity = "warning" ∧
    (cpu_alert_of (AlertManager.init 80 80 90 600) (cpuSample ninetyFivePointOne) 0).severity
      = "critical" ∧
    ((AlertManager.init 80 80 90 600).check_cpu_alert (cpuSample ninetyFivePointOne) 0).alert
      = some (cpu_alert_of (AlertManager.init 80 80 90 600) (cpuSample ninetyFivePointOne) 0) ∧
    (cpu_alert_of (AlertManager.init 80 80 90 600) (cpuSample ninetyFivePointOne) 0).metric_value
      = 95.1 ∧
    ((AlertManager.init 80 80 90 600).check_cpu_alert
      (cpuSample ninetyFivePointOne) 0).manager.last_alert_time AlertType.cpu = some 0 :=
  ⟨(((first_over_threshold_emits (AlertManager.init 80 80 90 600) 0).1
      (cpuSample 95) (by decide) rfl).2.2.2.2.1).mpr (by decide),
   (((first_over_threshold_emits (AlertManager.init 80 80 90 600) 0).1
      (cpuSample ninetyFivePointOne) (by decide) rfl).2.2.2.1).mpr (by decide),
   ((first_over_threshold_emits (AlertManager.init 80 80 90 600) 0).1
      (cpuSample ninetyFivePointOne) (by decide) rfl).1,
   (((first_over_threshold_emits (AlertManager.init 80 80 90 600) 0).1
      (cpuSample ninetyFivePointOne) (by decide) rfl).2.1).trans ninetyFivePointOne_eq,
   ((first_over_threshold_emits (AlertManager.init 80 80 90 600) 0).1
      (cpuSample ninetyFivePointOne) (by decide) rfl).2.2.2.2.2.2⟩

/-- C8 (confirmed): for every metric kind, a sample at or below the
threshold makes the corresponding check return nothing and leave the manager
— in particular the per-kind last-emission map and the active-alert list —
exactly unchanged. -/
theorem below_threshold_check_is_noop (m : AlertManager) (now : Int) :
    (∀ x : CPUMetrics, x.percent ≤ m.cpu_threshold →
      m.check_cpu_alert x now = { alert := none, manager := m, callback_results := [] }) ∧
    (∀ x : MemoryMetrics, x.percent ≤ m.memory_threshold →
      m.check_memory_alert x now = { alert := none, manager := m, callback_results := [] }) ∧
    (∀ x : DiskMetrics, x.percent ≤ m.disk_threshold →
      m.check_disk_alert x now = { alert := none, manager := m, callback_results := [] }) :=
  ⟨fun x h => check_cpu_below m x now (not_lt.mpr h),
   fun x h => check_memory_below m x now (not_lt.mpr h),
   fun x h => check_disk_below m x now (not_lt.mpr h)⟩

/-- Witness for C8: a 50% CPU sample against an 80% threshold returns no
alert and leaves the fresh manager unchanged. -/
theorem below_threshold_check_witness :
    (AlertManager.init 80 80 90 600).check_cpu_alert (cpuSample 50) 7 =
      { alert := none, manager := AlertManager.init 80 80 90 600, callback_results := [] } :=
  (below_threshold_check_is_noop (AlertManager.init 80 80 90 600) 7).1
    (cpuSample 50) (by decide)

/-- C7 (confirmed): `clear_alerts` with a kind removes exactly the active
alerts of that kind (membership in the remaining list is membership in the
old list of a different kind); with no kind it removes all active alerts;
neither form touches the per-kind last-emission map, so `_can_send_alert`
answers exactly as before the clear. -/
theorem clear_alerts_spec (m : AlertManager) (t : AlertType) :
    ((m.clear_alerts (some t)).active_alerts
      = m.active_alerts.filter (fun a => a.alert_type != t)) ∧
    (∀ a : Alert, a ∈ (m.clear_alerts (some t)).active_alerts ↔
      a ∈ m.active_alerts ∧ a.alert_type ≠ t) ∧
    ((m.clear_alerts none).active_alerts = []) ∧
    ((m.clear_alerts (some t)).last_alert_time = m.last_alert_time) ∧
    ((m.clear_alerts none).last_alert_time = m.last_alert_time) ∧
    (∀ o : Option AlertType, ∀ ty : AlertType, ∀ now : Int,
      (m.clear_alerts o)._can_send_alert ty now = m._can_send_alert ty now) := by
  refine ⟨rfl, ?_, rfl, rfl, rfl, ?_⟩
  · intro a
    simp [AlertManager.clear_alerts, List.mem_filter, bne_iff_ne]
  · intro o ty now
    cases o <;> rfl

/-! Lemmas for `acknowledge_alert` (claim C6). -/

theorem eraseP_eq_erase_nat (oid : Nat) (p : Nat → Bool) :
    ∀ l : List Nat, (∀ j ∈ l, (p j = true ↔ j = oid)) → l.eraseP p = l.erase oid := by
  intro l
  induction l with
  | nil => intro _; rfl
  | cons a as ih =>
    intro h
    have hhead := h a (List.mem_cons_self a as)
    rw [List.eraseP_cons, List.erase_cons]
    by_cases ha : a = oid
    · subst ha
      have hpa : p a = true := hhead.mpr rfl
      simp [hpa]
    · have hpa : p a = false := by
        cases hb : p a
        · rfl
        · exact absurd (hhead.mp hb) ha
      have htail := ih (fun j hj => h j (List.mem_cons_of_mem a hj))
      simp [hpa, ha, htail]

theorem ack_heap (s : AlertHeapState) (oid : Nat) :
    (s.acknowledge_alert oid).heap
      = fun j => if j = oid then { s.heap oid with acknowledged := true } else s.heap j := by
  simp only [AlertHeapState.acknowledge_alert]
  split <;> rfl

theorem ack_match_iff (s : AlertHeapState) (oid : Nat)
    (hunack : ∀ j ∈ s.active, (s.heap j).acknowledged = false) :
    ∀ j ∈ s.active,
      ((((fun k => if k = oid then { s.heap oid with acknowledged := true } else s.heap k) j)
        == { s.heap oid with acknowledged := true }) = true ↔ j = oid) := by
  intro j hj
  by_cases hja : j = oid
  · subst hja
    simp
  · simp only [if_neg hja, beq_iff_eq]
    constructor
    · intro he
      exfalso
      have hf := hunack j hj
      rw [he] at hf
      simp at hf
    · intro h
      exact absurd h hja

theorem ack_active (s : AlertHeapState) (oid : Nat)
    (hunack : ∀ j ∈ s.active, (s.heap j).acknowledged = false) :
    (s.acknowledge_alert oid).active = s.active.erase oid := by
  have hkey := ack_match_iff s oid hunack
  simp only [AlertHeapState.acknowledge_alert]
  split
  · exact eraseP_eq_erase_nat oid _ s.active hkey
  · rename_i hany
    rw [Bool.not_eq_true, List.any_eq_false] at hany
    have hmem : oid ∉ s.active := by
      intro hmem
      exact hany oid hmem (by simp)
    rw [List.erase_of_not_mem hmem]

/-- C6 (confirmed): acknowledging an alert marks the passed object
acknowledged and removes exactly that object (the entry with its id) from the
active list, leaving every other entry and its stored value untouched;
acknowledging an object that is not in the list changes no list entry, and a
second acknowledge of the same object is a no-op on the list.  The hypotheses
are the state invariants the manager maintains: listed alerts are
unacknowledged (alerts enter the list freshly constructed and leave it when
acknowledged) and each object appears at most once. -/
theorem acknowledge_alert_spec (s : AlertHeapState) (oid : Nat)
    (hunack : ∀ j ∈ s.active, (s.heap j).acknowledged = false)
    (hnodup : s.active.Nodup) :
    ((s.acknowledge_alert oid).heap oid).acknowledged = true ∧
    ((s.acknowledge_alert oid).heap oid = { s.heap oid with acknowledged := true }) ∧
    (∀ j : Nat, j ≠ oid → (s.acknowledge_alert oid).heap j = s.heap j) ∧
    ((s.acknowledge_alert oid).active = s.active.erase oid) ∧
    (oid ∉ s.active → (s.acknowledge_alert oid).active = s.active) ∧
    (((s.acknowledge_alert oid).acknowledge_alert oid).active
      = (s.acknowledge_alert oid).active) := by
  have hh := ack_heap s oid
  have ha := ack_active s oid hunack
  refine ⟨?_, ?_, ?_, ha, ?_, ?_⟩
  · rw [hh]
    simp
  · rw [hh]
    simp
  · intro j hj
    rw [hh]
    simp [hj]
  · intro hmem
    rw [ha, List.erase_of_not_mem hmem]
  · have hunack2 : ∀ j ∈ (s.acknowledge_alert oid).active,
        (((s.acknowledge_alert oid)).heap j).acknowledged = false := by
      intro j hj
      rw [ha] at hj
      have hne : j ≠ oid := by
        intro hje
        subst hje
        exact hnodup.not_mem_erase hj
      rw [hh]
      simp only [if_neg hne]
      exact hunack j (List.mem_of_mem_erase hj)
    have ha2 := ack_active (s.acknowledge_alert oid) oid hunack2
    rw [ha2, ha]
    apply List.erase_of_not_mem
    exact hnodup.not_mem_erase

/-- Witness for C6: acknowledging object 1 marks it acknowledged, removes
exactly it from the active list, and a repeated acknowledge leaves the list
unchanged. -/
theorem acknowledge_alert_spec_witness :
    ((ackStateAB.acknowledge_alert 1).heap 1).acknowledged = true ∧
    (ackStateAB.acknowledge_alert 1).active = [0] ∧
    ((ackStateAB.acknowledge_alert 1).acknowledge_alert 1).active
      = (ackStateAB.acknowledge_alert 1).active :=
  ⟨(acknowledge_alert_spec ackStateAB 1 (by decide) (by decide)).1,
   ((acknowledge_alert_spec ackStateAB 1 (by decide) (by decide)).2.2.2.1).trans (by decide),
   (acknowledge_alert_spec ackStateAB 1 (by decide) (by decide)).2.2.2.2.2⟩

/-! Lemmas for the broadcast loop (claim C5). -/

theorem send_loop_fst (send : Int → String → Except String Unit) (message : String) :
    ∀ l : List Int, (send_loop send message l).map Prod.fst = l := by
  intro l
  induction l with
  | nil => rfl
  | cons c rest ih =>
    unfold send_loop
    cases h : send c message <;> simp [ih]

theorem send_loop_mem (send : Int → String → Except String Unit) (message : String) :
    ∀ l : List Int, ∀ c ∈ l, (c, send c message) ∈ send_loop send message l := by
  intro l
  induction l with
  | nil =>
    intro c hc
    exact absurd hc (List.not_mem_nil c)
  | cons d rest ih =>
    intro c hc
    unfold send_loop
    rcases List.mem_cons.mp hc with hc | hc
    · subst hc
      cases h : send c message <;> simp [h]
    · cases h : send d message <;> exact List.mem_cons_of_mem _ (ih c hc)

/-- C5 (confirmed): broadcasting an alert with zero registered recipients
performs no delivery attempt (and, being a total function of the model,
raises nothing); with recipients present, every registered chat receives
exactly one delivery attempt in order — a failed attempt is recorded as an
`Except.error` outcome and does not prevent the attempts to the remaining
recipients — and the broadcast returns normally with the full attempt list. -/
theorem broadcast_spec (chats : List Int) (send : Int → String → Except String Unit)
    (a : Alert) :
    (_send_alert_to_chats [] send a = []) ∧
    ((_send_alert_to_chats chats send a).map Prod.fst = chats) ∧
    (∀ c ∈ chats, (c, send c (alert_chat_message a)) ∈ _send_alert_to_chats chats send a) := by
  refine ⟨rfl, ?_, ?_⟩
  · cases chats with
    | nil => rfl
    | cons c rest =>
      exact send_loop_fst send (alert_chat_message a) (c :: rest)
  · intro c hc
    cases chats with
    | nil => exact absurd hc (List.not_mem_nil c)
    | cons d rest =>
      exact send_loop_mem send (alert_chat_message a) (d :: rest) c hc

/-- Witness for C5: with recipients `[1, 2]` where delivery to chat 1 fails,
both chats are attempted in order, the failure is recorded, and chat 2 is
still attempted; with zero recipients nothing is attempted. -/
theorem broadcast_spec_witness :
    (_send_alert_to_chats [] sendFailsOn1 ackAlertA = []) ∧
    ((_send_alert_to_chats [1, 2] sendFailsOn1 ackAlertA).map Prod.fst = [1, 2]) ∧
    ((1 : Int), sendFailsOn1 1 (alert_chat_message ackAlertA))
      ∈ _send_alert_to_chats [1, 2] sendFailsOn1 ackAlertA ∧
    ((2 : Int), sendFailsOn1 2 (alert_chat_message ackAlertA))
      ∈ _send_alert_to_chats [1, 2] sendFailsOn1 ackAlertA :=
  ⟨(broadcast_spec [] sendFailsOn1 ackAlertA).1,
   (broadcast_spec [1, 2] sendFailsOn1 ackAlertA).2.1,
   (broadcast_spec [1, 2] sendFailsOn1 ackAlertA).2.2 1 (by simp),
   (broadcast_spec [1, 2] sendFailsOn1 ackAlertA).2.2 2 (by simp)⟩

/-- C2 (amended): in a scheduled tick, all three metrics are sampled before
any is evaluated, and the whole body sits in a single `try`/`except`; hence a
failure while sampling any one metric aborts the entire tick — no metric is
evaluated, no alert is collected, and the manager is returned unchanged (the
exception is caught and logged, so the failure is not fatal and the next tick
proceeds normally). -/
theorem sampling_failure_skips_tick (m : AlertManager) (cpu_sample : Except String CPUMetrics)
    (memory_sample : Except String MemoryMetrics) (disk_sample : Except String DiskMetrics)
    (now : Int)
    (h : (∃ e, cpu_sample = Except.error e) ∨ (∃ e, memory_sample = Except.error e) ∨
      (∃ e, disk_sample = Except.error e)) :
    check_system_health m cpu_sample memory_sample disk_sample now
      = { manager := m, alerts := [] } := by
  cases cpu_sample with
  | error e => rfl
  | ok c =>
    cases memory_sample with
    | error e => rfl
    | ok mm =>
      cases disk_sample with
      | error e => rfl
      | ok d =>
        rcases h with ⟨e, he⟩ | ⟨e, he⟩ | ⟨e, he⟩ <;> exact absurd he (by simp)

/-- C2 (counterexample): with a fresh manager, a CPU sampling failure and a
memory sample of 90% (over the 80% threshold), the tick collects no alert and
leaves the memory kind unevaluated — although the memory check on its own
would have emitted.  The claim that the other metrics are still sampled and
evaluated in that tick is therefore false. -/
theorem cpu_sampling_failure_blocks_memory_check :
    (check_system_health (AlertManager.init 80 80 90 600)
      (Except.error "cpu unreadable") (Except.ok (memSample 90)) (Except.ok (diskSample 50))
      0).alerts = [] ∧
    (check_system_health (AlertManager.init 80 80 90 600)
      (Except.error "cpu unreadable") (Except.ok (memSample 90)) (Except.ok (diskSample 50))
      0).manager.last_alert_time AlertType.memory = none ∧
    ((AlertManager.init 80 80 90 600).check_memory_alert (memSample 90) 0).alert
      = some (memory_alert_of (AlertManager.init 80 80 90 600) (memSample 90) 0) := by
  refine ⟨rfl, rfl, ?_⟩
  rw [check_memory_emit (AlertManager.init 80 80 90 600) (memSample 90) 0 (by decide) rfl]

/-- Witness for the amended C2 theorem at a concrete failing input. -/
theorem sampling_failure_skips_tick_witness :
    check_system_health (AlertManager.init 80 80 90 600)
      (Except.error "cpu unreadable") (Except.ok (memSample 90)) (Except.ok (diskSample 50)) 0
      = { manager := AlertManager.init 80 80 90 600, alerts := [] } :=
  sampling_failure_skips_tick (AlertManager.init 80 80 90 600)
    (Except.error "cpu unreadable") (Except.ok (memSample 90)) (Except.ok (diskSample 50)) 0
    (Or.inl ⟨"cpu unreadable", rfl⟩)

/-- C9 (confirmed): constructing `Settings` with any alerting field outside
its permitted range — a threshold outside 1..100, a check interval below 60,
or a cooldown below 60 (in particular cooldown = 0) — yields a validation
error, so the module-import-time `settings = Settings()` raises and the
process does not start. -/
theorem invalid_alert_config_rejected (s : Settings)
    (h : s.cpu_alert_threshold < 1 ∨ 100 < s.cpu_alert_threshold ∨
      s.memory_alert_threshold < 1 ∨ 100 < s.memory_alert_threshold ∨
      s.disk_alert_threshold < 1 ∨ 100 < s.disk_alert_threshold ∨
      s.alert_check_interval < 60 ∨ s.alert_cooldown < 60) :
    ∃ e, s.validate = Except.error e := by
  unfold Settings.validate
  by_cases h1 : ¬ (1 ≤ s.cpu_alert_threshold ∧ s.cpu_alert_threshold ≤ 100)
  · rw [if_pos h1]
    exact ⟨_, rfl⟩
  · rw [if_neg h1]
    by_cases h2 : ¬ (1 ≤ s.memory_alert_threshold ∧ s.memory_alert_threshold ≤ 100)
    · rw [if_pos h2]
      exact ⟨_, rfl⟩
    · rw [if_neg h2]
      by_cases h3 : ¬ (1 ≤ s.disk_alert_threshold ∧ s.disk_alert_threshold ≤ 100)
      · rw [if_pos h3]
        exact ⟨_, rfl⟩
      · rw [if_neg h3]
        by_cases h4 : ¬ (60 ≤ s.alert_check_interval)
        · rw [if_pos h4]
          exact ⟨_, rfl⟩
        · rw [if_neg h4]
          by_cases h5 : ¬ (60 ≤ s.alert_cooldown)
          · rw [if_pos h5]
            exact ⟨_, rfl⟩
          · exfalso
            rw [not_not] at h1 h2 h3 h4 h5
            omega

/-- Witness for C9: a configuration with cooldown 0 is rejected. -/
theorem invalid_alert_config_rejected_witness :
    ∃ e, settingsZeroCooldown.validate = Except.error e :=
  invalid_alert_config_rejected settingsZeroCooldown (by decide)

/-- C10 (confirmed): when a triggering check fires while some registered
callback raises, the exception is caught: every registered callback is still
invoked exactly once on the alert (the outcome list is the map of all
callbacks over the alert, in registration order), the alert stays appended to
the active list, the kind's last-emission instant stays updated, and the
check still returns the alert. -/
theorem callback_failure_does_not_block (m : AlertManager) (x : CPUMetrics) (now : Int)
    (hover : m.cpu_threshold < x.percent)
    (hcan : m._can_send_alert AlertType.cpu now = true)
    (hfail : ∃ cb ∈ m.callbacks, ∀ al : Alert, ∃ e, cb al = Except.error e) :
    (m.check_cpu_alert x now).alert = some (cpu_alert_of m x now) ∧
    (m.check_cpu_alert x now).callback_results
      = m.callbacks.map (fun cb => cb (cpu_alert_of m x now)) ∧
    (m.check_cpu_alert x now).callback_results.length = m.callbacks.length ∧
    (m.check_cpu_alert x now).manager.active_alerts
      = m.active_alerts ++ [cpu_alert_of m x now] ∧
    (m.check_cpu_alert x now).manager.last_alert_time AlertType.cpu = some now := by
  rw [check_cpu_emit m x now hover hcan]
  refine ⟨rfl, rfl, ?_, rfl, ?_⟩
  · simp [AlertManager._trigger_alert]
  · simp [AlertManager._trigger_alert, cpu_alert_of]

/-- Witness for C10: on the fixture manager a 90% CPU check fires; the first
callback raises, the second is still invoked, both outcomes are recorded in
order, the alert is active and the instant recorded. -/
theorem callback_failure_does_not_block_witness :
    (managerWithCallbacks.check_cpu_alert (cpuSample 90) 5).alert
      = some (cpu_alert_of managerWithCallbacks (cpuSample 90) 5) ∧
    (managerWithCallbacks.check_cpu_alert (cpuSample 90) 5).callback_results
      = [Except.error "boom", Except.ok ()] ∧
    (managerWithCallbacks.check_cpu_alert (cpuSample 90) 5).manager.active_alerts
      = [cpu_alert_of managerWithCallbacks (cpuSample 90) 5] ∧
    (managerWithCallbacks.check_cpu_alert (cpuSample 90) 5).manager.last_alert_time
      AlertType.cpu = some 5 :=
  ⟨(callback_failure_does_not_block managerWithCallbacks (cpuSample 90) 5 (by decide) rfl
      ⟨cbBoom, List.Mem.head _, fun al => ⟨"boom", rfl⟩⟩).1,
   ((callback_failure_does_not_block managerWithCallbacks (cpuSample 90) 5 (by decide) rfl
      ⟨cbBoom, List.Mem.head _, fun al => ⟨"boom", rfl⟩⟩).2.1).trans rfl,
   ((callback_failure_does_not_block managerWithCallbacks (cpuSample 90) 5 (by decide) rfl
      ⟨cbBoom, List.Mem.head _, fun al => ⟨"boom", rfl⟩⟩).2.2.2.1).trans rfl,
   (callback_failure_does_not_block managerWithCallbacks (cpuSample 90) 5 (by decide) rfl
      ⟨cbBoom, List.Mem.head _, fun al => ⟨"boom", rfl⟩⟩).2.2.2.2⟩

/-- Witness for C7: clearing the CPU kind removes only the CPU alert, a full
clear empties the list, and the last-emission map is untouched. -/
theorem clear_alerts_spec_witness :
    (managerTwoAlerts.clear_alerts (some AlertType.cpu)).active_alerts = [ackAlertB] ∧
    (managerTwoAlerts.clear_alerts none).active_alerts = [] ∧
    (managerTwoAlerts.clear_alerts (some AlertType.cpu)).last_alert_time
      = managerTwoAlerts.last_alert_time :=
  ⟨((clear_alerts_spec managerTwoAlerts AlertType.cpu).1).trans (by decide),
   (clear_alerts_spec managerTwoAlerts AlertType.cpu).2.2.1,
   (clear_alerts_spec managerTwoAlerts AlertType.cpu).2.2.2.1⟩
